import Mathlib

/-!
Verification development for the bank-statement parser agent (`agent.py`).

The Python program is a sequential agent loop around four tool handlers:
`extract_pdf_content`, `get_expected_info`, `write_code` and `run_test`,
driven by `run_agent`.  This file gives a shallow embedding of those pieces:

* pure helpers (`extract_pdf_content`, `run_test`, the write tool) become
  Lean functions;
* the external world (the pdf library, the tabular library, the model
  service, the filesystem) appears as explicit inputs: a list of pages, an
  abstract `DataFrame` value, an environment record of oracle results;
* the mutable loop state (transcript, attempt counter, the single parser
  file) becomes an explicit state record threaded through a step function.

Machine behaviour that the source leaves to Python (raised exceptions,
`json.dumps`) is modelled with `Except` and small rendering functions.
-/

namespace BankAgent

/-! ## Tabular values

`run_test` compares the candidate table with the reference table via the
pandas `DataFrame.equals` method, which demands identical column labels in
order, identical dtypes, and identical cell values (with NaN in matching
positions counting as equal).  Cells are modelled as an inductive of the
value kinds the program manipulates; `vnan` is a distinguished missing
value, so structural equality of rows coincides with the pandas notion. -/

inductive Value where
  | vstr (s : String)
  | vint (n : Int)
  | vnan
deriving DecidableEq, Repr

/-- A dataframe: column labels in order, per-column dtype descriptors in the
same order, and the rows in order. -/
structure DataFrame where
  cols : List String
  dtypes : List String
  rows : List (List Value)
deriving DecidableEq, Repr

/-- Model of `pandas.DataFrame.equals`: same labels in the same order, same
dtypes, same cell values in the same positions (NaN equal to NaN). -/
def DataFrame.equals (a b : DataFrame) : Bool :=
  a.cols == b.cols && a.dtypes == b.dtypes && a.rows == b.rows

/-- Model of the `.shape` attribute: `(row count, column count)`. -/
def DataFrame.shape (d : DataFrame) : Nat × Nat :=
  (d.rows.length, d.cols.length)

/-- The Python rendering of the `.shape` tuple, as interpolated into the
failure message: `(r, c)`. -/
def shapeStr (d : DataFrame) : String :=
  "(" ++ toString d.rows.length ++ ", " ++ toString d.cols.length ++ ")"

/-- Rendering of one cell, used by the model of the pandas textual display. -/
def Value.render : Value → String
  | .vstr s => s
  | .vint n => toString n
  | .vnan => "NaN"

/-- Model of the textual display of `df.head()` (the first five rows) that
Python interpolates into the failure message.  The exact pandas layout is an
implementation detail of the external library; it is modelled as the header
row followed by the first five data rows, cells space-separated. -/
def headStr (d : DataFrame) : String :=
  String.intercalate "\n"
    (String.intercalate " " d.cols :: (d.rows.take 5).map
      (fun r => String.intercalate " " (r.map Value.render)))

/-! ## `run_test`

`run_test(target, pdf_path, csv_path)` checks the parser file on disk,
loads it as a module, runs its `parse` entry point and compares the result
with the reference CSV.  The fallible external steps are inputs:

* `parserExists` — the `os.path.exists` check on the parser file;
* `specLoads` / `loaderAvailable` — the two `None` checks on the import
  machinery;
* `execResult` — the outcome of `spec.loader.exec_module(module)`: success,
  a raised `NameError` (the only class the source catches there), or any
  other raised error;
* `parseResult` — `module.parse(pdf_path)`: a dataframe or a raised error;
* `csvResult` — `pd.read_csv(csv_path)`: a dataframe or a raised error.

The result is `Except.ok s` when the Python function returns the string
`s`, and `Except.error e` when an exception with description `e` escapes
the function. -/

inductive LoadError where
  | nameError (msg : String)
  | otherError (msg : String)
deriving DecidableEq, Repr

structure TestEnv where
  target : String
  parserExists : Bool
  specLoads : Bool
  loaderAvailable : Bool
  execResult : Except LoadError Unit
  parseResult : Except String DataFrame
  csvResult : Except String DataFrame

/-- The failure message built when the two dataframes differ: both shapes
and both heads are interpolated. -/
def mismatchMsg (parsed expected : DataFrame) : String :=
  "TEST FAILED: DataFrames do not match. Parsed shape: " ++ shapeStr parsed
    ++ ", Expected shape: " ++ shapeStr expected
    ++ ". Sample diff: Parsed head:\n" ++ headStr parsed
    ++ "\nExpected head:\n" ++ headStr expected

/-- The parser file path `custom_parsers/{target}_parser.py`. -/
def parserPath (target : String) : String :=
  "custom_parsers/" ++ target ++ "_parser.py"

/-- Shallow embedding of `run_test`. -/
def run_test (env : TestEnv) : Except String String :=
  if !env.parserExists then
    .ok "Parser file does not exist."
  else if !env.specLoads then
    .ok ("Failed to load module spec for " ++ parserPath env.target ++ ".")
  else if !env.loaderAvailable then
    .ok ("No loader available for " ++ parserPath env.target ++ ".")
  else
    match env.execResult with
    | .error (.nameError m) =>
        .ok ("TEST FAILED: Parser module has invalid imports: " ++ m)
    | .error (.otherError m) =>
        -- only `NameError` is caught around `exec_module`; anything else
        -- propagates out of `run_test`
        .error m
    | .ok () =>
        match env.parseResult with
        | .error m => .ok ("TEST FAILED: " ++ m)
        | .ok parsed =>
            match env.csvResult with
            | .error m => .ok ("TEST FAILED: " ++ m)
            | .ok expected =>
                if parsed.equals expected then
                  .ok "TEST PASSED"
                else
                  .ok (mismatchMsg parsed expected)

/-- Substring containment, phrased on the underlying character lists. -/
def containsStr (m s : String) : Prop :=
  ∃ a b, m.data = a ++ s.data ++ b

theorem strData_append (a b : String) : (a ++ b).data = a.data ++ b.data := rfl

/-! ## PDF content extraction

`extract_pdf_content` walks the pages of the opened pdf.  A page is
modelled by what the external library yields from it: `page.extract_text()`
(possibly `None`) and `page.extract_tables()` (a list of cell grids). -/

structure Page where
  text : Option String
  tables : List (List (List String))
deriving DecidableEq, Repr

structure PdfContent where
  text : String
  tables : List (List (List String))
deriving DecidableEq, Repr

/-- Shallow embedding of `extract_pdf_content`: join the per-page texts
with newlines, mapping `None` to the empty string via `or ''`, and extend
one flat list with each page's tables, skipping empty results as the
`if page_tables:` guard does. -/
def extract_pdf_content (pages : List Page) : PdfContent :=
  { text := String.intercalate "\n" (pages.map (fun p => p.text.getD ""))
    tables := pages.foldl
      (fun acc p => if p.tables.isEmpty then acc else acc ++ p.tables) [] }

/-! ## The agent loop

`run_agent` keeps a transcript of messages, an attempt counter and drives
up to 30 model round-trips.  Messages are dictionaries with a role, a
content string and, depending on the role, a list of tool calls or a
`tool_call_id` plus tool name; absent keys are `none`. -/

inductive Role where
  | system
  | user
  | assistant
  | tool
deriving DecidableEq, Repr

/-- A tool invocation as delivered by the model service.  `id = none`
models a call object without a (truthy-checked) `id` attribute; the
argument payload is pre-decoded: `.ok code` stands for
`json.loads(arguments).get('code', '')` succeeding with `code`, while
`.error e` stands for `json.loads` (or the attribute access) raising with
description `e`. -/
structure ToolCall where
  id : Option String
  name : String
  args : Except String String
deriving Repr

instance : DecidableEq (Except String String) := fun
  | .ok a, .ok b =>
      if h : a = b then .isTrue (by rw [h])
      else .isFalse (by intro hh; cases hh; exact h rfl)
  | .error a, .error b =>
      if h : a = b then .isTrue (by rw [h])
      else .isFalse (by intro hh; cases hh; exact h rfl)
  | .ok _, .error _ => .isFalse (by intro hh; cases hh)
  | .error _, .ok _ => .isFalse (by intro hh; cases hh)

instance : DecidableEq ToolCall := fun a b =>
  match a, b with
  | ⟨i1, n1, a1⟩, ⟨i2, n2, a2⟩ =>
      if h : i1 = i2 ∧ n1 = n2 ∧ a1 = a2 then
        .isTrue (by obtain ⟨h1, h2, h3⟩ := h; rw [h1, h2, h3])
      else
        .isFalse (by intro hh; cases hh; exact h ⟨rfl, rfl, rfl⟩)

structure Message where
  role : Role
  content : String
  tool_calls : List ToolCall := []
  tool_call_id : Option String := none
  name : Option String := none
deriving DecidableEq, Repr

/-- A chat completion from the model: `content` may be `None`, and
`tool_calls` empty models a falsy `message.tool_calls`. -/
structure ModelResponse where
  content : Option String
  tool_calls : List ToolCall
deriving DecidableEq, Repr

/-- A Python value as it reaches `json.dumps`: either a `str` or some
other object together with its serialized form. -/
inductive PyObj where
  | pstr (s : String)
  | obj (ser : String)
deriving DecidableEq, Repr

/-- Model of `json.dumps` on the tool results this program produces:
strings are wrapped in double quotes (none of the fixed strings involved
need escaping); other objects carry their serialization. -/
def jsonDumps : PyObj → String
  | .pstr s => "\"" ++ s ++ "\""
  | .obj ser => ser

/-- The external world of one run: the target name and the oracle results
of the three read-only handlers.  `runTest` is the outcome of calling
`run_test` given the current parser-file content (`Except.error` models a
raised exception, which the dispatch loop catches). -/
structure Env where
  target : String
  pdfContent : Except String PyObj
  expectedInfo : Except String PyObj
  runTest : Option String → Except String String

/-- Mutable state of `run_agent`: the transcript, the write-attempt
counter, and the content of `custom_parsers/{target}_parser.py` on disk
(`none` when the file does not exist). -/
structure LoopState where
  messages : List Message
  attempts : Nat
  file : Option String
deriving Repr

/-- Shallow embedding of `write_code`: create the directory, overwrite the
file with `code`, return the confirmation string. -/
def write_code (target code : String) (_file : Option String) :
    String × Option String :=
  ("Written to " ++ parserPath target, some code)

/-- Shallow embedding of `tool_write_parser_code`: increment the counter
first, refuse above the cap, then decode the arguments and write.  The
last component records whether `write_code` was invoked. -/
def tool_write_parser_code (env : Env) (tc : ToolCall) (attempts : Nat)
    (file : Option String) : String × Nat × Option String × Bool :=
  let attempts := attempts + 1
  if attempts > 3 then
    ("Max attempts (3) reached. Cannot write more code.", attempts, file, false)
  else
    match tc.args with
    | .error e => ("Failed to parse tool arguments: " ++ e, attempts, file, false)
    | .ok code =>
        let (_, file) := write_code env.target code file
        ("Parser code written successfully.", attempts, file, true)

/-- The names registered in `tool_map`. -/
def toolNames : List String :=
  ["get_pdf_content", "get_expected_info", "write_parser_code", "run_test"]

/-- The three read-only handlers, dispatched by name; `run_test` runs on
the current parser file.  (Only called for a name in `toolNames` other
than `write_parser_code`.) -/
def dispatchKnown (env : Env) (file : Option String) : String → Except String PyObj
  | "get_pdf_content" => env.pdfContent
  | "get_expected_info" => env.expectedInfo
  | _ => (env.runTest file).map PyObj.pstr

/-- The truthiness check `hasattr(tool_call, 'id') and tool_call.id`. -/
def validId (tc : ToolCall) : Bool :=
  match tc.id with
  | none => false
  | some s => !(s == "")

/-- One iteration of the inner `for tool_call in message.tool_calls` body.
Returns the next state and whether a file write was performed. -/
def processToolCall (env : Env) (st : LoopState) (tc : ToolCall) :
    LoopState × Bool :=
  if toolNames.contains tc.name then
    if !validId tc then
      ({ st with messages := st.messages ++
          [{ role := .tool,
             content := "Error: Tool call for " ++ tc.name ++ " missing tool_call_id" }] },
       false)
    else
      let i := tc.id.getD ""
      if tc.name == "write_parser_code" then
        let (result, attempts, file, wrote) :=
          tool_write_parser_code env tc st.attempts st.file
        ({ st with
            attempts := attempts,
            file := file,
            messages := st.messages ++
              [{ role := .tool, tool_call_id := some i, name := some tc.name,
                 content := jsonDumps (.pstr result) }] },
         wrote)
      else
        match dispatchKnown env st.file tc.name with
        | .ok r =>
            ({ st with messages := st.messages ++
                [{ role := .tool, tool_call_id := some i, name := some tc.name,
                   content := jsonDumps r }] },
             false)
        | .error e =>
            ({ st with messages := st.messages ++
                [{ role := .tool, tool_call_id := some i,
                   content := "Tool error: " ++ e }] },
             false)
  else
    ({ st with messages := st.messages ++
        [{ role := .tool, tool_call_id := some (tc.id.getD "unknown"),
           content := "Unknown tool: " ++ tc.name }] },
     false)

/-- The whole `for tool_call in message.tool_calls` loop, also counting the
file writes performed. -/
def processCalls (env : Env) (st : LoopState) : List ToolCall → LoopState × Nat
  | [] => (st, 0)
  | tc :: rest =>
      let (st1, w) := processToolCall env st tc
      let (st2, wr) := processCalls env st1 rest
      (st2, (if w then 1 else 0) + wr)

/-- Model of Python `str.upper`: uppercase every character (the library
`String.toUpper` is the same map but is phrased through byte positions,
which the kernel cannot evaluate; the completion marker is plain ASCII). -/
def pyUpper (s : String) : String :=
  ⟨s.data.map Char.toUpper⟩

/-- `"FINISH" in content.upper()`. -/
def upperContainsFinish (s : String) : Bool :=
  finishIn (pyUpper s).data
where
  finishIn : List Char → Bool
    | 'F' :: 'I' :: 'N' :: 'I' :: 'S' :: 'H' :: _ => true
    | _ :: cs => finishIn cs
    | [] => false

/-- `"TEST PASSED" in final_result`. -/
def containsTestPassed (s : String) : Bool :=
  passIn s.data
where
  passIn : List Char → Bool
    | 'T' :: 'E' :: 'S' :: 'T' :: ' ' :: 'P' :: 'A' :: 'S' :: 'S' :: 'E' :: 'D' :: _ => true
    | _ :: cs => passIn cs
    | [] => false

/-- Outcome of one loop round. -/
inductive RoundResult where
  | next (st : LoopState)
  | finished (st : LoopState) (finalResult : String) (passed : Bool)
  | raised (st : LoopState) (err : String)
deriving Repr

/-- State reached at the end of a round, whatever its outcome. -/
def RoundResult.state : RoundResult → LoopState
  | .next st => st
  | .finished st _ _ => st
  | .raised st _ => st

/-- Body of the `while` loop for one model response: either dispatch the
requested tool calls, or append the plain assistant message and, on the
completion marker, run the final validation test and return.  The second
component counts file writes performed in the round. -/
def processResponse (env : Env) (st : LoopState) (resp : ModelResponse) :
    RoundResult × Nat :=
  if !resp.tool_calls.isEmpty then
    let st1 := { st with messages := st.messages ++
      [{ role := .assistant, content := resp.content.getD "",
         tool_calls := resp.tool_calls }] }
    let (st2, w) := processCalls env st1 resp.tool_calls
    (.next st2, w)
  else
    let content := resp.content.getD ""
    let st1 := { st with messages := st.messages ++
      [{ role := .assistant, content := content }] }
    if upperContainsFinish content then
      match env.runTest st1.file with
      | .ok r => (.finished st1 r (containsTestPassed r), 0)
      | .error e => (.raised st1 e, 0)
    else
      (.next st1, 0)

/-- Final outcome of a run: the model signalled completion (and the final
test reported `finalResult`), an exception escaped, or the iteration
ceiling was hit and `"Max iterations reached."` printed. -/
inductive Outcome where
  | finished (st : LoopState) (finalResult : String) (passed : Bool)
  | raised (st : LoopState) (err : String)
  | aborted (st : LoopState)
deriving Repr

def Outcome.isAborted : Outcome → Bool
  | .aborted _ => true
  | _ => false

/-- Result of a run: the outcome, the number of model round-trips
performed, and the number of file writes performed. -/
structure RunOut where
  outcome : Outcome
  rounds : Nat
  writes : Nat
deriving Repr

/-- The `while iteration < max_iterations` loop, with `fuel` the remaining
iterations and `responses i` the model's reply on round-trip `i`. -/
def runFrom (env : Env) (responses : Nat → ModelResponse) :
    LoopState → Nat → Nat → RunOut
  | st, _, 0 => ⟨.aborted st, 0, 0⟩
  | st, i, fuel + 1 =>
      match processResponse env st (responses i) with
      | (.next st1, w) =>
          let o := runFrom env responses st1 (i + 1) fuel
          ⟨o.outcome, o.rounds + 1, w + o.writes⟩
      | (.finished st1 r p, w) => ⟨.finished st1 r p, 1, w⟩
      | (.raised st1 e, w) => ⟨.raised st1 e, 1, w⟩

/-- The system prompt seeded into the transcript (with `target`
interpolated). -/
def systemPrompt (target : String) : String :=
  "You are a coding agent for writing bank statement PDF parsers.\n\nTarget bank: "
    ++ target ++ "\n\nGoal: Generate " ++ target
    ++ "_parser.py with:\n- Imports: MUST include `import pandas as pd` and `import pdfplumber`\n"
    ++ "- Function: def parse(pdf_path: str) -> pd.DataFrame\n"
    ++ "- The DataFrame must match the CSV schema exactly (rows, columns, values, dtypes)\n\n"
    ++ "Use tools:\n1. Call get_pdf_content to inspect PDF (text/tables for " ++ target
    ++ "-specific format, e.g., transaction tables).\n"
    ++ "2. Call get_expected_info for schema (columns like 'Date', 'Description', etc.; match exactly incl. dtypes).\n"
    ++ "3. Plan: Analyze PDF structure (e.g., extract table from pages, parse dates/debits). Handle "
    ++ target ++ " quirks (e.g., multi-line descriptions).\n"
    ++ "4. Generate FULL code string, starting with `import pandas as pd\nimport pdfplumber\n\ndef parse(pdf_path: str) -> pd.DataFrame:\n    ...`. Ensure robust (error handling, all pages processed).\n"
    ++ "5. Call write_parser_code with the complete code string.\n"
    ++ "6. Call run_test. If 'TEST PASSED', think \"Success!\" and FINISH.\n"
    ++ "7. If test fails, analyze error (e.g., wrong columns, parsing bug), fix code, and rewrite (max 3 attempts). On 3rd fail, FINISH anyway.\n\n"
    ++ "Output only tool calls or final thought + 'FINISH'. Keep code clean, typed, documented."

/-- The initial transcript: the system message and the user request. -/
def initState (target : String) (file0 : Option String) : LoopState :=
  { messages :=
      [{ role := .system, content := systemPrompt target },
       { role := .user,
         content := "Begin: Write parser for " ++ target ++ " bank statements." }],
    attempts := 0,
    file := file0 }

/-- Shallow embedding of the loop of `run_agent` (after the pre-flight
checks): 30 iterations at most, starting from a fresh attempt counter;
`file0` is whatever parser file already sits on disk. -/
def run_agent (env : Env) (responses : Nat → ModelResponse)
    (file0 : Option String) : RunOut :=
  runFrom env responses (initState env.target file0) 0 30

/-- The state with one message appended to the transcript. -/
def withMsg (st : LoopState) (m : Message) : LoopState :=
  { st with messages := st.messages ++ [m] }

/-! ## Theorems -/

theorem foldl_tables (a : List (List (List String))) (pages : List Page) :
    pages.foldl (fun acc p => if p.tables.isEmpty then acc else acc ++ p.tables) a
      = a ++ (pages.map Page.tables).flatten := by
  induction pages generalizing a with
  | nil => simp
  | cons p ps ih =>
      simp only [List.foldl_cons, List.map_cons, List.flatten_cons]
      by_cases h : p.tables.isEmpty
      · rw [if_pos h, ih, List.isEmpty_iff.mp h]
        simp
      · rw [if_neg h, ih, List.append_assoc]

/-- Claim C9: for every readable pdf, `extract_pdf_content` returns the
per-page texts joined by newlines (a page with no extractable text
contributing the empty string) together with the flat list of all tables
across all pages in page order; it is a pure function of the pages. -/
theorem extract_pdf_content_spec (pages : List Page) :
    (extract_pdf_content pages).text
        = String.intercalate "\n" (pages.map (fun p => p.text.getD "")) ∧
    (extract_pdf_content pages).tables = (pages.map Page.tables).flatten := by
  refine ⟨rfl, ?_⟩
  have h := foldl_tables [] pages
  rw [List.nil_append] at h
  exact h

/-- Claim C10: `tool_write_parser_code` increments the attempt counter
before decoding its arguments; an invocation whose arguments fail to
decode therefore consumes an attempt, writes no file, and (while under the
cap) reports the decoding failure.  The counter is never rolled back. -/
theorem write_attempt_consumed (env : Env) (tc : ToolCall) (a : Nat)
    (f : Option String) :
    (tool_write_parser_code env tc a f).2.1 = a + 1 ∧
    (∀ e, tc.args = .error e →
      (tool_write_parser_code env tc a f).2.2.1 = f ∧
      (a + 1 ≤ 3 →
        (tool_write_parser_code env tc a f).1
          = "Failed to parse tool arguments: " ++ e)) := by
  constructor
  · unfold tool_write_parser_code
    by_cases h3 : a + 1 > 3
    · simp [h3]
    · simp only [h3, if_false]
      match harg : tc.args with
      | .error e => simp
      | .ok code => simp [write_code]
  · intro e he
    unfold tool_write_parser_code
    rw [he]
    by_cases h3 : a + 1 > 3
    · simp [h3]; omega
    · simp [h3]

theorem write_attempt_consumed_witness :
    (tool_write_parser_code
        ⟨"icici", .ok (.pstr "p"), .ok (.pstr "e"), fun _ => .ok "r"⟩
        ⟨some "call_7", "write_parser_code", .error "Expecting value: line 1 column 1 (char 0)"⟩
        0 none).2.1 = 0 + 1 ∧
    (tool_write_parser_code
        ⟨"icici", .ok (.pstr "p"), .ok (.pstr "e"), fun _ => .ok "r"⟩
        ⟨some "call_7", "write_parser_code", .error "Expecting value: line 1 column 1 (char 0)"⟩
        0 none).2.2.1 = none ∧
    (tool_write_parser_code
        ⟨"icici", .ok (.pstr "p"), .ok (.pstr "e"), fun _ => .ok "r"⟩
        ⟨some "call_7", "write_parser_code", .error "Expecting value: line 1 column 1 (char 0)"⟩
        0 none).1
      = "Failed to parse tool arguments: Expecting value: line 1 column 1 (char 0)" := by
  have h := write_attempt_consumed
    ⟨"icici", .ok (.pstr "p"), .ok (.pstr "e"), fun _ => .ok "r"⟩
    ⟨some "call_7", "write_parser_code", .error "Expecting value: line 1 column 1 (char 0)"⟩
    0 none
  exact ⟨h.1, (h.2 _ rfl).1, (h.2 _ rfl).2 (by omega)⟩

theorem mismatch_ne_passed (p e : DataFrame) : mismatchMsg p e ≠ "TEST PASSED" := by
  intro h
  have hlen := congrArg String.length h
  rw [mismatchMsg] at hlen
  simp only [String.length_append] at hlen
  have h1 : ("TEST FAILED: DataFrames do not match. Parsed shape: ").length = 52 := by
    decide
  have h2 : ("TEST PASSED").length = 11 := by decide
  rw [h1, h2] at hlen
  omega

/-- Claim C3: when the parser file exists, the module loads, `parse`
returns a table and the reference CSV reads, `run_test` returns
`"TEST PASSED"` exactly when candidate and reference are identical in the
pandas `equals` sense (same shape, column order, row order, cell values,
dtypes); otherwise it returns the failure message embedding both shapes
and the heads of both tables. -/
theorem run_test_pass_iff_equals (env : TestEnv) (p e : DataFrame)
    (hex : env.parserExists = true) (hs : env.specLoads = true)
    (hl : env.loaderAvailable = true) (hm : env.execResult = .ok ())
    (hp : env.parseResult = .ok p) (hc : env.csvResult = .ok e) :
    (run_test env = .ok "TEST PASSED" ↔ p.equals e = true) ∧
    (p.equals e = false →
      run_test env = .ok (mismatchMsg p e) ∧
      containsStr (mismatchMsg p e) (shapeStr p) ∧
      containsStr (mismatchMsg p e) (shapeStr e) ∧
      containsStr (mismatchMsg p e) (headStr p) ∧
      containsStr (mismatchMsg p e) (headStr e)) := by
  have hrun : run_test env
      = if p.equals e then .ok "TEST PASSED" else .ok (mismatchMsg p e) := by
    unfold run_test
    rw [hex, hs, hl, hm, hp, hc]
    rfl
  constructor
  · rw [hrun]
    by_cases hpe : p.equals e
    · simp [hpe]
    · simp only [hpe, if_false, Bool.false_eq_true, iff_false]
      intro hcontra
      exact mismatch_ne_passed p e (by injection hcontra)
  · intro hpe
    refine ⟨by rw [hrun, hpe]; rfl, ?_, ?_, ?_, ?_⟩
    · exact ⟨("TEST FAILED: DataFrames do not match. Parsed shape: ").data,
        (", Expected shape: " ++ shapeStr e ++ ". Sample diff: Parsed head:\n"
          ++ headStr p ++ "\nExpected head:\n" ++ headStr e).data,
        by simp [mismatchMsg, strData_append, List.append_assoc]⟩
    · exact ⟨("TEST FAILED: DataFrames do not match. Parsed shape: " ++ shapeStr p
          ++ ", Expected shape: ").data,
        (". Sample diff: Parsed head:\n" ++ headStr p ++ "\nExpected head:\n"
          ++ headStr e).data,
        by simp [mismatchMsg, strData_append, List.append_assoc]⟩
    · exact ⟨("TEST FAILED: DataFrames do not match. Parsed shape: " ++ shapeStr p
          ++ ", Expected shape: " ++ shapeStr e ++ ". Sample diff: Parsed head:\n").data,
        ("\nExpected head:\n" ++ headStr e).data,
        by simp [mismatchMsg, strData_append, List.append_assoc]⟩
    · exact ⟨("TEST FAILED: DataFrames do not match. Parsed shape: " ++ shapeStr p
          ++ ", Expected shape: " ++ shapeStr e ++ ". Sample diff: Parsed head:\n"
          ++ headStr p ++ "\nExpected head:\n").data,
        ([] : List Char),
        by simp [mismatchMsg, strData_append, List.append_assoc]⟩

theorem run_test_pass_iff_equals_witness :
    (run_test ⟨"icici", true, true, true, .ok (),
        .ok ⟨["Date"], ["object"], [[.vstr "01-08-2024"]]⟩,
        .ok ⟨["Date"], ["object"], [[.vstr "01-08-2024"], [.vstr "02-08-2024"]]⟩⟩
      = .ok "TEST PASSED"
      ↔ DataFrame.equals ⟨["Date"], ["object"], [[.vstr "01-08-2024"]]⟩
          ⟨["Date"], ["object"], [[.vstr "01-08-2024"], [.vstr "02-08-2024"]]⟩ = true) ∧
    run_test ⟨"icici", true, true, true, .ok (),
        .ok ⟨["Date"], ["object"], [[.vstr "01-08-2024"]]⟩,
        .ok ⟨["Date"], ["object"], [[.vstr "01-08-2024"], [.vstr "02-08-2024"]]⟩⟩
      = .ok (mismatchMsg ⟨["Date"], ["object"], [[.vstr "01-08-2024"]]⟩
          ⟨["Date"], ["object"], [[.vstr "01-08-2024"], [.vstr "02-08-2024"]]⟩) := by
  have h := run_test_pass_iff_equals
    ⟨"icici", true, true, true, .ok (),
      .ok ⟨["Date"], ["object"], [[.vstr "01-08-2024"]]⟩,
      .ok ⟨["Date"], ["object"], [[.vstr "01-08-2024"], [.vstr "02-08-2024"]]⟩⟩
    ⟨["Date"], ["object"], [[.vstr "01-08-2024"]]⟩
    ⟨["Date"], ["object"], [[.vstr "01-08-2024"], [.vstr "02-08-2024"]]⟩
    rfl rfl rfl rfl rfl rfl
  exact ⟨h.1, (h.2 (by decide)).1⟩

/-- Claim C4, counterexample: a module whose loading raises anything other
than a `NameError` — here an `ImportError` for a missing third-party
module — makes that error escape `run_test` (modelled as `Except.error`)
instead of being converted to a failure string, refuting the claim that no
error raised during module loading escapes `run_test`. -/
theorem run_test_load_error_escapes :
    run_test ⟨"icici", true, true, true,
        .error (.otherError "No module named pandas"),
        .ok ⟨[], [], []⟩, .ok ⟨[], [], []⟩⟩
      = .error "No module named pandas" := rfl

/-- Claim C4 (amended): a `NameError` raised while loading the generated
module (the module referencing a name its imports do not provide) is
recovered locally and reported as a descriptive failure string; any other
error raised during module loading propagates out of `run_test`. -/
theorem run_test_name_error_recovered (env : TestEnv) (m : String)
    (hex : env.parserExists = true) (hs : env.specLoads = true)
    (hl : env.loaderAvailable = true) :
    (env.execResult = .error (.nameError m) →
      run_test env
        = .ok ("TEST FAILED: Parser module has invalid imports: " ++ m)) ∧
    (env.execResult = .error (.otherError m) → run_test env = .error m) := by
  constructor <;> intro hm <;> unfold run_test <;> rw [hex, hs, hl, hm] <;> rfl

theorem run_test_name_error_recovered_witness :
    run_test ⟨"icici", true, true, true,
        .error (.nameError "name 'pd' is not defined"),
        .ok ⟨[], [], []⟩, .ok ⟨[], [], []⟩⟩
      = .ok "TEST FAILED: Parser module has invalid imports: name 'pd' is not defined" := by
  have h := run_test_name_error_recovered
    ⟨"icici", true, true, true, .error (.nameError "name 'pd' is not defined"),
      .ok ⟨[], [], []⟩, .ok ⟨[], [], []⟩⟩
    "name 'pd' is not defined" rfl rfl rfl
  exact h.1 rfl

/-! Branch characterizations of `processToolCall`, used by the transcript
and counter invariants below. -/

theorem ptc_missing_id (env : Env) (st : LoopState) (tc : ToolCall)
    (hn : toolNames.contains tc.name = true) (hv : validId tc = false) :
    processToolCall env st tc =
      ({ st with
          messages := st.messages ++
            [{ role := .tool,
               content := "Error: Tool call for " ++ tc.name
                 ++ " missing tool_call_id" }] },
       false) := by
  unfold processToolCall
  rw [hn, hv]
  rfl

theorem ptc_write (env : Env) (st : LoopState) (tc : ToolCall)
    (hv : validId tc = true) (hw : tc.name = "write_parser_code") :
    processToolCall env st tc =
      ({ st with
          attempts := (tool_write_parser_code env tc st.attempts st.file).2.1,
          file := (tool_write_parser_code env tc st.attempts st.file).2.2.1,
          messages := st.messages ++
            [{ role := .tool, tool_call_id := some (tc.id.getD ""),
               name := some tc.name,
               content := jsonDumps
                 (.pstr (tool_write_parser_code env tc st.attempts st.file).1) }] },
       (tool_write_parser_code env tc st.attempts st.file).2.2.2) := by
  unfold processToolCall
  rw [hw, hv]
  rfl

theorem ptc_known_ok (env : Env) (st : LoopState) (tc : ToolCall) (r : PyObj)
    (hn : toolNames.contains tc.name = true) (hv : validId tc = true)
    (hw : (tc.name == "write_parser_code") = false)
    (hd : dispatchKnown env st.file tc.name = .ok r) :
    processToolCall env st tc =
      ({ st with
          messages := st.messages ++
            [{ role := .tool, tool_call_id := some (tc.id.getD ""),
               name := some tc.name, content := jsonDumps r }] },
       false) := by
  unfold processToolCall
  rw [hn, hv, hw, hd]
  rfl

theorem ptc_known_err (env : Env) (st : LoopState) (tc : ToolCall) (e : String)
    (hn : toolNames.contains tc.name = true) (hv : validId tc = true)
    (hw : (tc.name == "write_parser_code") = false)
    (hd : dispatchKnown env st.file tc.name = .error e) :
    processToolCall env st tc =
      ({ st with
          messages := st.messages ++
            [{ role := .tool, tool_call_id := some (tc.id.getD ""),
               content := "Tool error: " ++ e }] },
       false) := by
  unfold processToolCall
  rw [hn, hv, hw, hd]
  rfl

theorem ptc_unknown (env : Env) (st : LoopState) (tc : ToolCall)
    (hn : toolNames.contains tc.name = false) :
    processToolCall env st tc =
      ({ st with
          messages := st.messages ++
            [{ role := .tool, tool_call_id := some (tc.id.getD "unknown"),
               content := "Unknown tool: " ++ tc.name }] },
       false) := by
  unfold processToolCall
  rw [hn]
  rfl

/-! Branch characterizations of `processResponse`. -/

theorem presp_tools (env : Env) (st : LoopState) (resp : ModelResponse)
    (hc : resp.tool_calls.isEmpty = false) :
    processResponse env st resp =
      (.next (processCalls env
          (withMsg st ⟨.assistant, resp.content.getD "", resp.tool_calls, none, none⟩)
          resp.tool_calls).1,
       (processCalls env
          (withMsg st ⟨.assistant, resp.content.getD "", resp.tool_calls, none, none⟩)
          resp.tool_calls).2) := by
  unfold processResponse
  rw [hc]
  rfl

theorem presp_finish (env : Env) (st : LoopState) (resp : ModelResponse) (r : String)
    (hc : resp.tool_calls.isEmpty = true)
    (hf : upperContainsFinish (resp.content.getD "") = true)
    (hrt : env.runTest st.file = .ok r) :
    processResponse env st resp =
      (.finished (withMsg st ⟨.assistant, resp.content.getD "", [], none, none⟩)
         r (containsTestPassed r), 0) := by
  unfold processResponse
  rw [hc, if_neg (by simp), if_pos hf]
  have hfile : (withMsg st ⟨.assistant, resp.content.getD "", [], none, none⟩).file
      = st.file := rfl
  show (match env.runTest
      (withMsg st ⟨.assistant, resp.content.getD "", [], none, none⟩).file with
    | .ok r => (RoundResult.finished
        (withMsg st ⟨.assistant, resp.content.getD "", [], none, none⟩)
        r (containsTestPassed r), 0)
    | .error e => (RoundResult.raised
        (withMsg st ⟨.assistant, resp.content.getD "", [], none, none⟩) e, 0)) = _
  rw [hfile, hrt]

theorem presp_raised (env : Env) (st : LoopState) (resp : ModelResponse) (e : String)
    (hc : resp.tool_calls.isEmpty = true)
    (hf : upperContainsFinish (resp.content.getD "") = true)
    (hrt : env.runTest st.file = .error e) :
    processResponse env st resp =
      (.raised (withMsg st ⟨.assistant, resp.content.getD "", [], none, none⟩) e, 0) := by
  unfold processResponse
  rw [hc, if_neg (by simp), if_pos hf]
  have hfile : (withMsg st ⟨.assistant, resp.content.getD "", [], none, none⟩).file
      = st.file := rfl
  show (match env.runTest
      (withMsg st ⟨.assistant, resp.content.getD "", [], none, none⟩).file with
    | .ok r => (RoundResult.finished
        (withMsg st ⟨.assistant, resp.content.getD "", [], none, none⟩)
        r (containsTestPassed r), 0)
    | .error e => (RoundResult.raised
        (withMsg st ⟨.assistant, resp.content.getD "", [], none, none⟩) e, 0)) = _
  rw [hfile, hrt]

theorem presp_plain (env : Env) (st : LoopState) (resp : ModelResponse)
    (hc : resp.tool_calls.isEmpty = true)
    (hf : upperContainsFinish (resp.content.getD "") = false) :
    processResponse env st resp =
      (.next (withMsg st ⟨.assistant, resp.content.getD "", [], none, none⟩), 0) := by
  unfold processResponse
  rw [hc, if_neg (by simp), if_neg (by simp [hf])]
  rfl

/-- One dispatched call moves `min attempts 3` up by at least the number
of file writes it performs (an accepted write both increments the counter
and is only possible strictly below the cap). -/
theorem attempts_min_step (env : Env) (st : LoopState) (tc : ToolCall) :
    min st.attempts 3 + (if (processToolCall env st tc).2 then 1 else 0)
      ≤ min (processToolCall env st tc).1.attempts 3 := by
  cases hn : toolNames.contains tc.name with
  | false => rw [ptc_unknown env st tc hn]; simp
  | true =>
      cases hv : validId tc with
      | false => rw [ptc_missing_id env st tc hn hv]; simp
      | true =>
          cases hw : tc.name == "write_parser_code" with
          | false =>
              cases hd : dispatchKnown env st.file tc.name with
              | ok r => rw [ptc_known_ok env st tc r hn hv hw hd]; simp
              | error e => rw [ptc_known_err env st tc e hn hv hw hd]; simp
          | true =>
              have hw' : tc.name = "write_parser_code" := by
                simpa using hw
              rw [ptc_write env st tc hv hw']
              cases ha : tc.args with
              | error e =>
                  simp only [tool_write_parser_code, ha]
                  by_cases h3 : st.attempts + 1 > 3
                  · rw [if_pos h3]; simp
                  · rw [if_neg h3]; simp
              | ok code =>
                  simp only [tool_write_parser_code, ha, write_code]
                  by_cases h3 : st.attempts + 1 > 3
                  · rw [if_pos h3]; simp
                  · rw [if_neg h3]; simp; omega

theorem attempts_min_calls (env : Env) (tcs : List ToolCall) : ∀ st : LoopState,
    min st.attempts 3 + (processCalls env st tcs).2
      ≤ min (processCalls env st tcs).1.attempts 3 := by
  induction tcs with
  | nil => intro st; simp [processCalls]
  | cons tc rest ih =>
      intro st
      have h1 := attempts_min_step env st tc
      have h2 := ih (processToolCall env st tc).1
      have hfst : (processCalls env st (tc :: rest)).1
          = (processCalls env (processToolCall env st tc).1 rest).1 := rfl
      have hsnd : (processCalls env st (tc :: rest)).2
          = (if (processToolCall env st tc).2 then 1 else 0)
            + (processCalls env (processToolCall env st tc).1 rest).2 := rfl
      rw [hfst, hsnd]
      omega

theorem attempts_min_response (env : Env) (st : LoopState) (resp : ModelResponse) :
    min st.attempts 3 + (processResponse env st resp).2
      ≤ min ((processResponse env st resp).1.state).attempts 3 := by
  unfold processResponse
  by_cases hc : resp.tool_calls.isEmpty
  · rw [if_neg (by simp [hc])]
    by_cases hf : upperContainsFinish (resp.content.getD "")
    · rw [if_pos hf]
      cases hrt : env.runTest (some (st.file.getD "")) with
      | ok r => cases hrt2 : env.runTest st.file <;> simp [RoundResult.state]
      | error e => cases hrt2 : env.runTest st.file <;> simp [RoundResult.state]
    · rw [if_neg hf]
      simp [RoundResult.state]
  · rw [if_pos (by simp [hc])]
    have h := attempts_min_calls env resp.tool_calls
      { st with messages := st.messages ++
          [{ role := .assistant, content := resp.content.getD "",
             tool_calls := resp.tool_calls }] }
    simpa [RoundResult.state] using h

theorem runFrom_writes (env : Env) (responses : Nat → ModelResponse) :
    ∀ (fuel : Nat) (st : LoopState) (i : Nat),
      min st.attempts 3 + (runFrom env responses st i fuel).writes ≤ 3 := by
  intro fuel
  induction fuel with
  | zero => intro st i; simp [runFrom]
  | succ n ih =>
      intro st i
      have hresp := attempts_min_response env st (responses i)
      rcases hr : processResponse env st (responses i) with ⟨r, w⟩
      rw [hr] at hresp
      cases r with
      | next st1 =>
          have h2 := ih st1 (i + 1)
          simp only [runFrom, hr]
          simp [RoundResult.state] at hresp
          omega
      | finished st1 res p =>
          simp only [runFrom, hr]
          simp [RoundResult.state] at hresp
          omega
      | raised st1 e =>
          simp only [runFrom, hr]
          simp [RoundResult.state] at hresp
          omega

theorem twpc_attempts (env : Env) (tc : ToolCall) (a : Nat) (f : Option String) :
    (tool_write_parser_code env tc a f).2.1 = a + 1 := by
  unfold tool_write_parser_code
  by_cases h3 : a + 1 > 3
  · simp [h3]
  · simp only [h3, if_false]
    match harg : tc.args with
    | .error e => simp
    | .ok code => simp [write_code]

/-- Claim C1: (i) the attempt counter goes up by exactly one on every
write invocation that reaches the handler, so with a fresh counter the
n-th dispatched `write_parser_code` invocation runs with counter `n - 1`;
(ii) the 4th and every later dispatched write invocation (counter at 3 or
above) is refused with the fixed message, mutating no file, and the loop
continues with the next state; (iii) over any whole run at most 3 file
writes are performed. -/
theorem write_cap (env : Env) :
    (∀ (st : LoopState) (tc : ToolCall), tc.name = "write_parser_code" →
        validId tc = true →
        (processToolCall env st tc).1.attempts = st.attempts + 1) ∧
    (∀ (st : LoopState) (tc : ToolCall), tc.name = "write_parser_code" →
        validId tc = true → 3 ≤ st.attempts →
        processToolCall env st tc =
          ({ st with
              attempts := st.attempts + 1,
              messages := st.messages ++
                [{ role := .tool, tool_call_id := some (tc.id.getD ""),
                   name := some tc.name,
                   content := jsonDumps
                     (.pstr "Max attempts (3) reached. Cannot write more code.") }] },
           false)) ∧
    (∀ (responses : Nat → ModelResponse) (file0 : Option String),
        (run_agent env responses file0).writes ≤ 3) := by
  refine ⟨?_, ?_, ?_⟩
  · intro st tc hw hv
    rw [ptc_write env st tc hv hw]
    exact twpc_attempts env tc st.attempts st.file
  · intro st tc hw hv h3
    rw [ptc_write env st tc hv hw]
    have e1 : tool_write_parser_code env tc st.attempts st.file
        = ("Max attempts (3) reached. Cannot write more code.",
           st.attempts + 1, st.file, false) := by
      simp only [tool_write_parser_code]
      rw [if_pos (by omega)]
    rw [e1]
  · intro responses file0
    have h := runFrom_writes env responses 30 (initState env.target file0) 0
    rw [show (initState env.target file0).attempts = 0 from rfl] at h
    unfold run_agent
    omega

theorem write_cap_witness :
    processToolCall ⟨"icici", .ok (.pstr "p"), .ok (.pstr "e"), fun _ => .ok "r"⟩
        ⟨[], 3, some "old code"⟩
        ⟨some "call_9", "write_parser_code", .ok "new code"⟩ =
      (⟨[{ role := .tool, tool_call_id := some "call_9",
           name := some "write_parser_code",
           content := "\"Max attempts (3) reached. Cannot write more code.\"" }],
        4, some "old code"⟩,
       false) ∧
    (run_agent ⟨"icici", .ok (.pstr "p"), .ok (.pstr "e"), fun _ => .ok "r"⟩
        (fun _ => ⟨some "Analyzing the statement.", []⟩) none).writes ≤ 3 := by
  have h := write_cap ⟨"icici", .ok (.pstr "p"), .ok (.pstr "e"), fun _ => .ok "r"⟩
  refine ⟨?_, h.2.2 (fun _ => ⟨some "Analyzing the statement.", []⟩) none⟩
  have h2 := h.2.1 ⟨[], 3, some "old code"⟩
    ⟨some "call_9", "write_parser_code", .ok "new code"⟩ rfl (by decide) (by decide)
  rw [h2]
  rfl

theorem runFrom_rounds_le (env : Env) (responses : Nat → ModelResponse) :
    ∀ (fuel : Nat) (st : LoopState) (i : Nat),
      (runFrom env responses st i fuel).rounds ≤ fuel := by
  intro fuel
  induction fuel with
  | zero => intro st i; simp [runFrom]
  | succ n ih =>
      intro st i
      rcases hr : processResponse env st (responses i) with ⟨r, w⟩
      cases r with
      | next st1 =>
          have := ih st1 (i + 1)
          simp only [runFrom, hr]
          omega
      | finished st1 res p => simp only [runFrom, hr]; omega
      | raised st1 e => simp only [runFrom, hr]; omega

theorem runFrom_aborted_rounds (env : Env) (responses : Nat → ModelResponse) :
    ∀ (fuel : Nat) (st : LoopState) (i : Nat),
      ((runFrom env responses st i fuel).outcome.isAborted = true) →
        (runFrom env responses st i fuel).rounds = fuel := by
  intro fuel
  induction fuel with
  | zero => intro st i _; simp [runFrom]
  | succ n ih =>
      intro st i h
      rcases hr : processResponse env st (responses i) with ⟨r, w⟩
      cases r with
      | next st1 =>
          simp only [runFrom, hr] at h ⊢
          have := ih st1 (i + 1) h
          omega
      | finished st1 res p =>
          simp only [runFrom, hr, Outcome.isAborted] at h
          exact Bool.noConfusion h
      | raised st1 e =>
          simp only [runFrom, hr, Outcome.isAborted] at h
          exact Bool.noConfusion h

/-- Claim C2: a run performs at most 30 model round-trips, and whenever it
ends in the `aborted` outcome (the "Max iterations reached." report, not a
raised exception), it did so after exactly 30 round-trips without a
completion signal. -/
theorem iteration_ceiling (env : Env) (responses : Nat → ModelResponse)
    (file0 : Option String) :
    (run_agent env responses file0).rounds ≤ 30 ∧
    ((run_agent env responses file0).outcome.isAborted = true →
      (run_agent env responses file0).rounds = 30) :=
  ⟨runFrom_rounds_le env responses 30 (initState env.target file0) 0,
   fun h => runFrom_aborted_rounds env responses 30 (initState env.target file0) 0 h⟩

theorem iteration_ceiling_witness :
    (run_agent ⟨"icici", .ok (.pstr "p"), .ok (.pstr "e"), fun _ => .ok "TEST PASSED"⟩
        (fun _ => ⟨some "Analyzing the statement.", []⟩) none).rounds ≤ 30 ∧
    (run_agent ⟨"icici", .ok (.pstr "p"), .ok (.pstr "e"), fun _ => .ok "TEST PASSED"⟩
        (fun _ => ⟨some "Analyzing the statement.", []⟩) none).rounds = 30 := by
  have h := iteration_ceiling
    ⟨"icici", .ok (.pstr "p"), .ok (.pstr "e"), fun _ => .ok "TEST PASSED"⟩
    (fun _ => ⟨some "Analyzing the statement.", []⟩) none
  exact ⟨h.1, h.2 (by rfl)⟩

/-- Claim C8: dispatching a tool invocation whose name is not in the
four-tool catalog appends an explicit "unknown tool" result to the
transcript, changes nothing else, performs no write, and raises no error
(the step is total and yields a state the loop continues from). -/
theorem unknown_tool_result (env : Env) (st : LoopState) (tc : ToolCall)
    (h : toolNames.contains tc.name = false) :
    processToolCall env st tc =
      ({ st with
          messages := st.messages ++
            [{ role := .tool, tool_call_id := some (tc.id.getD "unknown"),
               content := "Unknown tool: " ++ tc.name }] },
       false) := by
  unfold processToolCall
  rw [h]
  rfl

theorem unknown_tool_result_witness :
    processToolCall ⟨"icici", .ok (.pstr "p"), .ok (.pstr "e"), fun _ => .ok "r"⟩
        ⟨[], 0, none⟩ ⟨some "call_3", "delete_parser_code", .ok ""⟩ =
      (⟨[{ role := .tool, tool_call_id := some "call_3",
           content := "Unknown tool: delete_parser_code" }], 0, none⟩,
       false) := by
  have h := unknown_tool_result
    ⟨"icici", .ok (.pstr "p"), .ok (.pstr "e"), fun _ => .ok "r"⟩
    ⟨[], 0, none⟩ ⟨some "call_3", "delete_parser_code", .ok ""⟩ (by decide)
  rw [h]
  rfl

theorem ptc_appends_one (env : Env) (st : LoopState) (tc : ToolCall) :
    ∃ m : Message, (processToolCall env st tc).1.messages = st.messages ++ [m] := by
  cases hn : toolNames.contains tc.name with
  | false => exact ⟨_, by rw [ptc_unknown env st tc hn]⟩
  | true =>
      cases hv : validId tc with
      | false => exact ⟨_, by rw [ptc_missing_id env st tc hn hv]⟩
      | true =>
          cases hw : tc.name == "write_parser_code" with
          | true =>
              have hw2 : tc.name = "write_parser_code" := by simpa using hw
              exact ⟨_, by rw [ptc_write env st tc hv hw2]⟩
          | false =>
              cases hd : dispatchKnown env st.file tc.name with
              | ok r => exact ⟨_, by rw [ptc_known_ok env st tc r hn hv hw hd]⟩
              | error e => exact ⟨_, by rw [ptc_known_err env st tc e hn hv hw hd]⟩

theorem processCalls_appends (env : Env) (tcs : List ToolCall) :
    ∀ st : LoopState,
      ∃ suf, (processCalls env st tcs).1.messages = st.messages ++ suf := by
  induction tcs with
  | nil => intro st; exact ⟨[], by simp [processCalls]⟩
  | cons tc rest ih =>
      intro st
      obtain ⟨m, hm⟩ := ptc_appends_one env st tc
      obtain ⟨suf, hsuf⟩ := ih (processToolCall env st tc).1
      refine ⟨[m] ++ suf, ?_⟩
      have hfst : (processCalls env st (tc :: rest)).1
          = (processCalls env (processToolCall env st tc).1 rest).1 := rfl
      rw [hfst, hsuf, hm, List.append_assoc]

/-- Claim C5 (amended): the transcript is append-only — each loop round
only appends messages — and every tool-result message produced for an
invocation carrying a non-empty correlation token carries that very token
back.  A catalog-tool invocation whose token is missing or empty yields
the error result naming the missing token, appended without any token; an
unknown-named invocation with a missing token instead yields the "unknown
tool" result carrying the placeholder token "unknown". -/
theorem transcript_append_only (env : Env) :
    (∀ (st : LoopState) (resp : ModelResponse),
      ∃ suf, ((processResponse env st resp).1.state).messages
        = st.messages ++ suf) ∧
    (∀ (st : LoopState) (tc : ToolCall) (i : String),
      tc.id = some i → i ≠ "" →
      ∃ m : Message, (processToolCall env st tc).1.messages = st.messages ++ [m] ∧
        m.role = .tool ∧ m.tool_call_id = some i) ∧
    (∀ (st : LoopState) (tc : ToolCall),
      toolNames.contains tc.name = true → validId tc = false →
      (processToolCall env st tc).1.messages = st.messages ++
        [{ role := .tool,
           content := "Error: Tool call for " ++ tc.name
             ++ " missing tool_call_id" }]) ∧
    (∀ (st : LoopState) (tc : ToolCall),
      toolNames.contains tc.name = false → tc.id = none →
      (processToolCall env st tc).1.messages = st.messages ++
        [{ role := .tool, tool_call_id := some "unknown",
           content := "Unknown tool: " ++ tc.name }]) := by
  refine ⟨?_, ?_, ?_, ?_⟩
  · intro st resp
    cases hc : resp.tool_calls.isEmpty with
    | false =>
        rw [presp_tools env st resp hc]
        obtain ⟨suf, hsuf⟩ := processCalls_appends env resp.tool_calls
          (withMsg st ⟨.assistant, resp.content.getD "", resp.tool_calls, none, none⟩)
        refine ⟨⟨.assistant, resp.content.getD "", resp.tool_calls, none, none⟩ :: suf, ?_⟩
        simp only [RoundResult.state]
        rw [hsuf]
        simp [withMsg]
    | true =>
        cases hf : upperContainsFinish (resp.content.getD "") with
        | false =>
            rw [presp_plain env st resp hc hf]
            exact ⟨[⟨.assistant, resp.content.getD "", [], none, none⟩],
              by simp [RoundResult.state, withMsg]⟩
        | true =>
            cases hrt : env.runTest st.file with
            | ok r =>
                rw [presp_finish env st resp r hc hf hrt]
                exact ⟨[⟨.assistant, resp.content.getD "", [], none, none⟩],
                  by simp [RoundResult.state, withMsg]⟩
            | error e =>
                rw [presp_raised env st resp e hc hf hrt]
                exact ⟨[⟨.assistant, resp.content.getD "", [], none, none⟩],
                  by simp [RoundResult.state, withMsg]⟩
  · intro st tc i hid hne
    have hv : validId tc = true := by
      unfold validId
      rw [hid]
      simp [hne]
    cases hn : toolNames.contains tc.name with
    | false =>
        refine ⟨⟨.tool, "Unknown tool: " ++ tc.name, [], some i, none⟩, ?_, rfl, rfl⟩
        rw [ptc_unknown env st tc hn]
        simp [hid]
    | true =>
        cases hw : tc.name == "write_parser_code" with
        | true =>
            have hw2 : tc.name = "write_parser_code" := by simpa using hw
            refine ⟨⟨.tool,
              jsonDumps (.pstr (tool_write_parser_code env tc st.attempts st.file).1),
              [], some i, some tc.name⟩, ?_, rfl, rfl⟩
            rw [ptc_write env st tc hv hw2]
            simp [hid]
        | false =>
            cases hd : dispatchKnown env st.file tc.name with
            | ok r =>
                refine ⟨⟨.tool, jsonDumps r, [], some i, some tc.name⟩, ?_, rfl, rfl⟩
                rw [ptc_known_ok env st tc r hn hv hw hd]
                simp [hid]
            | error e =>
                refine ⟨⟨.tool, "Tool error: " ++ e, [], some i, none⟩, ?_, rfl, rfl⟩
                rw [ptc_known_err env st tc e hn hv hw hd]
                simp [hid]
  · intro st tc hn hv
    rw [ptc_missing_id env st tc hn hv]
  · intro st tc hn hid
    rw [ptc_unknown env st tc hn, hid]
    rfl

theorem transcript_append_only_witness :
    ((processToolCall ⟨"icici", .ok (.pstr "p"), .ok (.pstr "e"), fun _ => .ok "r"⟩
        ⟨[], 0, none⟩ ⟨some "call_1", "run_test", .ok ""⟩).1.messages.map
      (fun m => (m.role, m.tool_call_id)))
      = [(Role.tool, some "call_1")] ∧
    (processToolCall ⟨"icici", .ok (.pstr "p"), .ok (.pstr "e"), fun _ => .ok "r"⟩
        ⟨[], 0, none⟩ ⟨some "", "get_pdf_content", .ok ""⟩).1.messages
      = [{ role := .tool,
           content := "Error: Tool call for get_pdf_content missing tool_call_id" }] ∧
    (processToolCall ⟨"icici", .ok (.pstr "p"), .ok (.pstr "e"), fun _ => .ok "r"⟩
        ⟨[], 0, none⟩ ⟨none, "fetch_raw_text", .ok ""⟩).1.messages
      = [{ role := .tool, tool_call_id := some "unknown",
           content := "Unknown tool: fetch_raw_text" }] := by
  refine ⟨?_, ?_, ?_⟩
  · obtain ⟨m, hm, hrole, htok⟩ := (transcript_append_only
      ⟨"icici", .ok (.pstr "p"), .ok (.pstr "e"), fun _ => .ok "r"⟩).2.1
      ⟨[], 0, none⟩ ⟨some "call_1", "run_test", .ok ""⟩ "call_1" rfl (by decide)
    rw [hm]
    simp [hrole, htok]
  · exact (transcript_append_only
      ⟨"icici", .ok (.pstr "p"), .ok (.pstr "e"), fun _ => .ok "r"⟩).2.2.1
      ⟨[], 0, none⟩ ⟨some "", "get_pdf_content", .ok ""⟩ (by decide) (by decide)
  · exact (transcript_append_only
      ⟨"icici", .ok (.pstr "p"), .ok (.pstr "e"), fun _ => .ok "r"⟩).2.2.2
      ⟨[], 0, none⟩ ⟨none, "fetch_raw_text", .ok ""⟩ (by decide) rfl

/-- Claim C5, counterexample: a `run_test` invocation whose call object has
no truthy `id` yields a tool-result message appended to the transcript with
no `tool_call_id` at all, so not every tool-result message references the
invocation it answers via its correlation token. -/
theorem tool_result_without_token :
    ((processToolCall ⟨"icici", .ok (.pstr "p"), .ok (.pstr "e"), fun _ => .ok "r"⟩
        ⟨[], 0, none⟩ ⟨none, "run_test", .ok ""⟩).1.messages.map
      (fun m => (m.role, m.tool_call_id)))
      = [(Role.tool, none)] := rfl

/-- Claim C6 (amended): a tool invocation of a *catalog* tool whose
correlation token is missing or empty never reaches its handler: the step
changes neither the attempt counter nor the parser file, performs no
write, and only appends the error result naming the missing token.
(An invocation with an unknown name and a missing token instead yields the
"unknown tool" result.) -/
theorem missing_token_skips_handler (env : Env) (st : LoopState) (tc : ToolCall)
    (hn : toolNames.contains tc.name = true) (hv : validId tc = false) :
    processToolCall env st tc =
      ({ st with
          messages := st.messages ++
            [{ role := .tool,
               content := "Error: Tool call for " ++ tc.name
                 ++ " missing tool_call_id" }] },
       false) :=
  ptc_missing_id env st tc hn hv

theorem missing_token_skips_handler_witness :
    processToolCall ⟨"icici", .ok (.pstr "p"), .ok (.pstr "e"), fun _ => .ok "r"⟩
        ⟨[], 1, some "code"⟩ ⟨some "", "run_test", .ok ""⟩ =
      (⟨[{ role := .tool,
           content := "Error: Tool call for run_test missing tool_call_id" }],
        1, some "code"⟩,
       false) := by
  have h := missing_token_skips_handler
    ⟨"icici", .ok (.pstr "p"), .ok (.pstr "e"), fun _ => .ok "r"⟩
    ⟨[], 1, some "code"⟩ ⟨some "", "run_test", .ok ""⟩ (by decide) (by decide)
  rw [h]
  rfl

/-- Claim C6, counterexample: an invocation with a missing token but an
unrecognized name does not get the missing-token error result; it gets the
"unknown tool" result (with the placeholder token "unknown"), so the claim
does not hold of every token-less invocation. -/
theorem missing_token_unknown_tool :
    processToolCall ⟨"icici", .ok (.pstr "p"), .ok (.pstr "e"), fun _ => .ok "r"⟩
        ⟨[], 0, none⟩ ⟨none, "fetch_raw_text", .ok ""⟩ =
      (⟨[{ role := .tool, tool_call_id := some "unknown",
           content := "Unknown tool: fetch_raw_text" }], 0, none⟩,
       false) ∧
    ("Unknown tool: fetch_raw_text"
      ≠ "Error: Tool call for fetch_raw_text missing tool_call_id") :=
  ⟨rfl, by decide⟩

/-- Claim C7: an assistant response with no tool invocations whose text
contains the completion marker (case-insensitively) makes the loop run one
final validation test; whatever string that test returns — passing or
failing — the round ends in the `finished` outcome, the run stops after
that round, and the parser file on disk is untouched. -/
theorem finish_final_test (env : Env) (st : LoopState) (resp : ModelResponse)
    (r : String) (hnc : resp.tool_calls = [])
    (hfin : upperContainsFinish (resp.content.getD "") = true)
    (hrt : env.runTest st.file = .ok r) :
    processResponse env st resp =
      (.finished (withMsg st ⟨.assistant, resp.content.getD "", [], none, none⟩)
         r (containsTestPassed r), 0) ∧
    ((processResponse env st resp).1.state).file = st.file ∧
    (∀ (responses : Nat → ModelResponse) (i fuel : Nat), responses i = resp →
      runFrom env responses st i (fuel + 1) =
        ⟨.finished (withMsg st ⟨.assistant, resp.content.getD "", [], none, none⟩)
           r (containsTestPassed r), 1, 0⟩) := by
  have hc : resp.tool_calls.isEmpty = true := by rw [hnc]; rfl
  have h1 := presp_finish env st resp r hc hfin hrt
  refine ⟨h1, by rw [h1]; rfl, ?_⟩
  intro responses i fuel hi
  simp only [runFrom, hi, h1]

theorem finish_final_test_witness :
    processResponse
        ⟨"icici", .ok (.pstr "p"), .ok (.pstr "e"),
          fun _ => .ok "TEST FAILED: Parser file does not exist."⟩
        ⟨[], 2, some "code"⟩ ⟨some "All checks done. finish", []⟩ =
      (.finished
         ⟨[{ role := .assistant, content := "All checks done. finish" }],
          2, some "code"⟩
         "TEST FAILED: Parser file does not exist." false, 0) := by
  have h := finish_final_test
    ⟨"icici", .ok (.pstr "p"), .ok (.pstr "e"),
      fun _ => .ok "TEST FAILED: Parser file does not exist."⟩
    ⟨[], 2, some "code"⟩ ⟨some "All checks done. finish", []⟩
    "TEST FAILED: Parser file does not exist." rfl (by rfl) rfl
  rw [h.1]
  rfl

end BankAgent
